import Mathlib

/-!
Verification of `.github/actions/common/route-category/router.py`.

The script reads four environment variables, loads a JSON routing table
mapping dispatcher categories to lists of subactions, resolves a category
(either an explicit override or the first category whose list contains the
requested subaction), prints `category=<name>`, and appends that line to the
`GITHUB_OUTPUT` file when one is configured.  Failures print a GitHub error
annotation plus a plain message to stderr and exit with status 1.

The embedding below models the script as a pure function from the process
environment and a filesystem/parse oracle to an `Outcome` describing the
observable behaviour of one invocation.
-/

namespace RouteCategory

/-- A parsed JSON value, as produced by Python's `json.loads`.  Numbers are
modelled as integers; no claim depends on numeric values. -/
inductive JValue where
  | null
  | bool (b : Bool)
  | num (n : Int)
  | str (s : String)
  | arr (elems : List JValue)
  | obj (fields : List (String × JValue))

/-- Characters removed by Python's `str.strip()` (ASCII whitespace). -/
def isPyWhitespaceChar (c : Char) : Bool :=
  c = ' ' || c = '\t' || c = '\n' || c = '\r' || c = '\x0b' || c = '\x0c'

/-- Python's `str.strip()`: drop leading and trailing whitespace. -/
def pyStrip (s : String) : String :=
  ⟨((s.toList.dropWhile isPyWhitespaceChar).reverse.dropWhile isPyWhitespaceChar).reverse⟩

/-- What the script observes when it checks `routes_path.exists()` and then
evaluates `json.loads(routes_path.read_text("utf-8"))` on a path:
the path may be absent; it may exist but not be readable as UTF-8 text
(a directory, or invalid UTF-8 bytes), in which case `read_text` raises an
exception other than `json.JSONDecodeError`; the text may fail to parse as
JSON (with the parser's error detail); or it parses to a JSON value. -/
inductive FileContent where
  | absent
  | unreadable
  | parseError (detail : String)
  | value (v : JValue)

/-- The process environment: the four variables the script reads, each either
unset (`none`) or set to a raw string. -/
structure Env where
  SA : Option String
  CAT : Option String
  ROUTES_FILE : Option String
  GITHUB_OUTPUT : Option String

/-- The four error kinds of the script's error taxonomy. -/
inductive ErrKind where
  | missingRoutingTable
  | invalidRoutingTable
  | unsupportedCategory
  | unsupportedSubaction
deriving DecidableEq

/-- Observable behaviour of one invocation:
`error kind title message` — the script called `emit_error(title, message)`
  (two stderr lines, `SystemExit(1)`);
`success category append` — the script printed `category=<category>` and, when
  `append = some p`, appended that line plus a newline to the file `p`;
`uncaughtException` — an exception escaped `main` (interpreter traceback,
  nonzero exit, no `::error` annotation). -/
inductive Outcome where
  | error (kind : ErrKind) (title message : String)
  | success (category : String) (append : Option String)
  | uncaughtException
deriving DecidableEq

/-- The stderr lines produced by `emit_error(title, message)` in the script:
the `::error` annotation line and a plain duplicate of the message. -/
def emit_error (title message : String) : List String :=
  ["::error title=" ++ title ++ "::" ++ message, message]

/-- The line printed on success: `category=<name>`. -/
def outputLine (category : String) : String := "category=" ++ category

/-- Which file (if any) the success path appends to.  The script reads
`os.environ.get("GITHUB_OUTPUT")` with no default and no strip, and appends
only under `if github_output:` — Python truthiness: `None` and `""` are
falsy, every other string (including whitespace-only) is truthy. -/
def outAppend (github_output : Option String) : Option String :=
  match github_output with
  | none => none
  | some s => if s = "" then none else some s

/-- Python membership test `sa in subs` for a string `sa` against a list of
JSON values: an element matches exactly when it is the same string (Python
`==` between a `str` and a non-`str` JSON value is `False`). -/
def pyEqStr (x : String) : JValue → Bool
  | .str t => x == t
  | _ => false

/-- `sa in subs` for a JSON value `v` standing for `subs`. -/
def jListHas (v : JValue) (x : String) : Bool :=
  match v with
  | .arr elems => elems.any (pyEqStr x)
  | _ => false

/-- `isinstance(v, list)`. -/
def isList : JValue → Bool
  | .arr _ => true
  | _ => false

/-- A JSON value that is a list of strings only. -/
def isStrList : JValue → Bool
  | .arr elems => elems.all (fun e => match e with | .str _ => true | _ => false)
  | _ => false

/-- The string elements of a JSON array (in order). -/
def strElems : JValue → List String
  | .arr elems => elems.filterMap (fun e => match e with | .str t => some t | _ => none)
  | _ => []

/-- A valid routing table in the sense of the spec's data model: every
category's value is a list of strings. -/
def validTable (fields : List (String × JValue)) : Bool :=
  fields.all (fun kv => isStrList kv.2)

/-- The schema check the script actually performs (router.py line 40):
`isinstance(routes, dict)` and no value fails `isinstance(v, list)`. -/
def schemaOk : JValue → Bool
  | .obj fields => !(fields.any (fun kv => !(isList kv.2)))
  | _ => false

/-- The error emitted at router.py line 30. -/
def missingTableError : Outcome :=
  .error .missingRoutingTable "Missing routing table"
    "routes.json not found for route-category action"

/-- The error emitted at router.py line 41. -/
def invalidTableError : Outcome :=
  .error .invalidRoutingTable "Invalid routing table"
    "routes.json must map categories to lists of subactions"

/-- router.py lines 43–57: routing over a schema-validated table.
If `CAT` is non-empty it must be a key (lines 46–49); otherwise `SA` must be
non-empty (lines 52–53) and the first category whose list contains it wins
(line 55: `next((cat for cat, subs in routes.items() if sa in subs), None)`). -/
def routeTable (fields : List (String × JValue)) (sa cat_override : String)
    (github_output : Option String) : Outcome :=
  if cat_override ≠ "" then
    if (fields.map Prod.fst).contains cat_override then
      .success cat_override (outAppend github_output)
    else
      .error .unsupportedCategory "Unsupported category"
        ("Unsupported category '" ++ cat_override ++ "'")
  else if sa = "" then
    .error .unsupportedSubaction "Unsupported subaction"
      "Subaction is required when category is not provided"
  else
    match fields.find? (fun kv => jListHas kv.2 sa) with
    | some kv => .success kv.1 (outAppend github_output)
    | none =>
        .error .unsupportedSubaction "Unsupported subaction"
          ("Unsupported subaction '" ++ sa ++ "'")

/-- router.py line 40: `not isinstance(routes, dict) or any(not isinstance(v,
list) for v in routes.values())` rejects the parsed value; otherwise routing
proceeds. -/
def routeValue (routes : JValue) (sa cat_override : String)
    (github_output : Option String) : Outcome :=
  match routes with
  | .obj fields =>
      if fields.any (fun kv => !(isList kv.2)) then invalidTableError
      else routeTable fields sa cat_override github_output
  | _ => invalidTableError

/-- router.py lines 29–37: dispatch on what the filesystem holds at the routes
path.  Only `json.JSONDecodeError` is caught (line 36); an exception from
`read_text` (directory, invalid UTF-8) propagates out of `main`. -/
def routeContent (c : FileContent) (sa cat_override : String)
    (github_output : Option String) : Outcome :=
  match c with
  | .absent => missingTableError
  | .unreadable => .uncaughtException
  | .parseError detail =>
      .error .invalidRoutingTable "Invalid routing table"
        ("Failed to parse routes.json: " ++ detail)
  | .value v => routeValue v sa cat_override github_output

/-- The core of `main` (router.py lines 28–67) after the environment has been
read: takes the stripped `ROUTES_FILE`, `SA` and `CAT` values, the raw
`GITHUB_OUTPUT` value, and the filesystem/parse oracle.  Line 29:
`if not routes_path or not routes_path.exists()` — the path is `None` exactly
when the stripped `ROUTES_FILE` is empty. -/
def resolve (routes_path_env sa cat_override : String)
    (github_output : Option String) (fs : String → FileContent) : Outcome :=
  if routes_path_env = "" then missingTableError
  else routeContent (fs routes_path_env) sa cat_override github_output

/-- The whole invocation (router.py lines 19–67): `SA`, `CAT` and
`ROUTES_FILE` are read with default `""` and `.strip()`; `GITHUB_OUTPUT` is
read raw with default `None`. -/
def main (env : Env) (fs : String → FileContent) : Outcome :=
  resolve (pyStrip (env.ROUTES_FILE.getD "")) (pyStrip (env.SA.getD ""))
    (pyStrip (env.CAT.getD "")) env.GITHUB_OUTPUT fs

/-- Process exit status of an outcome; an uncaught Python exception also
terminates the interpreter with status 1. -/
def exitCode : Outcome → Nat
  | .success _ _ => 0
  | .error _ _ _ => 1
  | .uncaughtException => 1

/-- The stderr lines of an outcome; `none` for an uncaught exception, whose
interpreter traceback is outside the model. -/
def stderrOf : Outcome → Option (List String)
  | .error _ t m => some (emit_error t m)
  | .success _ _ => some []
  | .uncaughtException => none

/-- What gets appended to which file: `some (path, text)` when the outcome
appends `text` to the file at `path`, `none` when no file is touched. -/
def appendOf : Outcome → Option (String × String)
  | .success c a => a.map (fun p => (p, outputLine c ++ "\n"))
  | _ => none

/-! ## Helper lemmas -/

/-- A list of strings is in particular a list. -/
theorem isList_of_isStrList (v : JValue) (h : isStrList v = true) :
    isList v = true := by
  cases v <;> simp_all [isStrList, isList]

/-- A valid routing table passes the script's schema check. -/
theorem validTable_any_false (fields : List (String × JValue))
    (h : validTable fields = true) :
    fields.any (fun kv => !(isList kv.2)) = false := by
  rw [Bool.eq_false_iff]
  intro hc
  rw [List.any_eq_true] at hc
  obtain ⟨kv, hmem, hkv⟩ := hc
  rw [validTable, List.all_eq_true] at h
  have hs := h kv hmem
  have hl := isList_of_isStrList kv.2 hs
  simp [hl] at hkv

/-- On a list of strings, Python's `sa in subs` is membership of `sa` among
the (string) elements. -/
theorem any_pyEqStr_eq_contains (x : String) :
    ∀ elems : List JValue,
      elems.all (fun e => match e with | .str _ => true | _ => false) = true →
      elems.any (pyEqStr x) =
        (elems.filterMap
          (fun e => match e with | .str t => some t | _ => none)).contains x := by
  intro elems
  induction elems with
  | nil => intro _; rfl
  | cons e es ih =>
    intro h
    rw [List.all_cons, Bool.and_eq_true] at h
    obtain ⟨he, hes⟩ := h
    cases e with
    | str t =>
      simp only [List.any_cons, List.filterMap_cons, List.contains_cons,
        pyEqStr, ih hes]
    | null => simp at he
    | bool b => simp at he
    | num n => simp at he
    | arr l => simp at he
    | obj l => simp at he

/-- On a valid (string-list) value, `sa in subs` is exact string membership. -/
theorem jListHas_eq_strElems (v : JValue) (hv : isStrList v = true)
    (x : String) :
    jListHas v x = (strElems v).contains x := by
  cases v with
  | arr elems => exact any_pyEqStr_eq_contains x elems hv
  | null => simp [isStrList] at hv
  | bool b => simp [isStrList] at hv
  | num n => simp [isStrList] at hv
  | str s => simp [isStrList] at hv
  | obj l => simp [isStrList] at hv

/-- `List.find?` returns the element at the first satisfying position. -/
theorem find?_first {α : Type _} (p : α → Bool) (l : List α) :
    ∀ (i : Nat) (hi : i < l.length),
      p (l.get ⟨i, hi⟩) = true →
      (∀ a ∈ l.take i, p a = false) →
      l.find? p = some (l.get ⟨i, hi⟩) := by
  induction l with
  | nil => intro i hi _ _; exact absurd hi (Nat.not_lt_zero i)
  | cons a l ih =>
    intro i hi hp hfirst
    cases i with
    | zero => exact List.find?_cons_of_pos l hp
    | succ i =>
      have ha : p a = false := by
        apply hfirst
        rw [List.take_succ_cons]
        exact List.mem_cons_self a _
      rw [List.find?_cons_of_neg l (by simp [ha])]
      exact ih i (Nat.lt_of_succ_lt_succ hi) hp
        (fun x hx => hfirst x (by rw [List.take_succ_cons]; exact List.mem_cons_of_mem a hx))

/-- Every successful outcome of `resolve` carries exactly the append decision
`outAppend github_output` (router.py lines 63–67). -/
theorem resolve_success_append (routes_path_env sa cat_override : String)
    (github_output : Option String) (fs : String → FileContent)
    (c : String) (a : Option String)
    (h : resolve routes_path_env sa cat_override github_output fs
          = .success c a) :
    a = outAppend github_output := by
  unfold resolve routeContent routeValue routeTable at h
  repeat' split at h
  all_goals simp_all [missingTableError, invalidTableError]

/-! ## Claims -/

/-- C5: for every routing-table file whose content is not parseable as JSON,
resolution fails with `InvalidRoutingTable`, the parser's error detail is
included in the message, and the process exits with a non-zero status. -/
theorem c5_parse_failure (env : Env) (fs : String → FileContent)
    (detail : String)
    (hroutes : pyStrip (env.ROUTES_FILE.getD "") ≠ "")
    (hfs : fs (pyStrip (env.ROUTES_FILE.getD "")) = .parseError detail) :
    main env fs = .error .invalidRoutingTable "Invalid routing table"
        ("Failed to parse routes.json: " ++ detail)
      ∧ exitCode (main env fs) = 1 := by
  have hmain : main env fs = .error .invalidRoutingTable "Invalid routing table"
      ("Failed to parse routes.json: " ++ detail) := by
    simp [main, resolve, hroutes, hfs, routeContent]
  exact ⟨hmain, by rw [hmain]; rfl⟩

theorem c5_witness :
    main ⟨none, none, some "routes.json", none⟩
        (fun _ => .parseError "Expecting value: line 1 column 1 (char 0)")
      = .error .invalidRoutingTable "Invalid routing table"
          ("Failed to parse routes.json: "
            ++ "Expecting value: line 1 column 1 (char 0)") :=
  (c5_parse_failure ⟨none, none, some "routes.json", none⟩
    (fun _ => .parseError "Expecting value: line 1 column 1 (char 0)")
    "Expecting value: line 1 column 1 (char 0)" (by decide) rfl).1

/-- C6: an empty routing-table path (including an unset `ROUTES_FILE`) or a
path that does not reference an existing file fails with
`MissingRoutingTable` and exit status 1, regardless of any file content. -/
theorem c6_missing_routing_table (env : Env) (fs : String → FileContent)
    (h : pyStrip (env.ROUTES_FILE.getD "") = ""
          ∨ fs (pyStrip (env.ROUTES_FILE.getD "")) = .absent) :
    main env fs = .error .missingRoutingTable "Missing routing table"
        "routes.json not found for route-category action"
      ∧ exitCode (main env fs) = 1 := by
  have hmain : main env fs = .error .missingRoutingTable "Missing routing table"
      "routes.json not found for route-category action" := by
    rcases h with h | h
    · simp [main, resolve, h, missingTableError]
    · by_cases hr : pyStrip (env.ROUTES_FILE.getD "") = ""
      · simp [main, resolve, hr, missingTableError]
      · simp [main, resolve, hr, h, routeContent, missingTableError]
  exact ⟨hmain, by rw [hmain]; rfl⟩

theorem c6_witness :
    main ⟨some "write-remote-env-file", none, none, none⟩
        (fun _ => .value (.obj []))
      = .error .missingRoutingTable "Missing routing table"
          "routes.json not found for route-category action" :=
  (c6_missing_routing_table ⟨some "write-remote-env-file", none, none, none⟩
    (fun _ => .value (.obj [])) (Or.inl (by decide))).1

/-- C8: with a valid routing table and both the subaction and the category
override empty, resolution fails with `UnsupportedSubaction` ("Subaction is
required when category is not provided") and exit status 1. -/
theorem c8_subaction_required (env : Env) (fs : String → FileContent)
    (fields : List (String × JValue))
    (hroutes : pyStrip (env.ROUTES_FILE.getD "") ≠ "")
    (hfs : fs (pyStrip (env.ROUTES_FILE.getD "")) = .value (.obj fields))
    (hvalid : validTable fields = true)
    (hcat : pyStrip (env.CAT.getD "") = "")
    (hsa : pyStrip (env.SA.getD "") = "") :
    main env fs = .error .unsupportedSubaction "Unsupported subaction"
        "Subaction is required when category is not provided"
      ∧ exitCode (main env fs) = 1 := by
  have hmain : main env fs = .error .unsupportedSubaction "Unsupported subaction"
      "Subaction is required when category is not provided" := by
    simp [main, resolve, hroutes, hfs, routeContent, routeValue,
      validTable_any_false fields hvalid, routeTable, hcat, hsa]
  exact ⟨hmain, by rw [hmain]; rfl⟩

theorem c8_witness :
    main ⟨some "   ", none, some "routes.json", none⟩
        (fun _ => .value (.obj [("env", .arr [.str "write-remote-env-file"])]))
      = .error .unsupportedSubaction "Unsupported subaction"
          "Subaction is required when category is not provided" :=
  (c8_subaction_required ⟨some "   ", none, some "routes.json", none⟩
    (fun _ => .value (.obj [("env", .arr [.str "write-remote-env-file"])]))
    [("env", .arr [.str "write-remote-env-file"])]
    (by decide) rfl (by decide) (by decide) (by decide)).1

/-- C10: a routes path that exists but cannot be read as UTF-8 text escapes
the `json.JSONDecodeError` handler, so the invocation ends as an uncaught
exception — not as any of the four `::error`-annotated failures; every
`emit_error` failure path, by contrast, prints exactly two stderr lines (the
annotation and a plain duplicate of the message) and exits with status 1. -/
theorem c10_unreadable_uncaught (env : Env) (fs : String → FileContent)
    (hroutes : pyStrip (env.ROUTES_FILE.getD "") ≠ "")
    (hfs : fs (pyStrip (env.ROUTES_FILE.getD "")) = .unreadable) :
    main env fs = .uncaughtException
      ∧ (∀ k t m, main env fs ≠ .error k t m)
      ∧ stderrOf (main env fs) = none
      ∧ (∀ k t m, stderrOf (Outcome.error k t m)
            = some ["::error title=" ++ t ++ "::" ++ m, m]
          ∧ (emit_error t m).length = 2
          ∧ exitCode (Outcome.error k t m) = 1) := by
  have hmain : main env fs = .uncaughtException := by
    simp [main, resolve, hroutes, hfs, routeContent]
  refine ⟨hmain, ?_, by rw [hmain]; rfl, ?_⟩
  · intro k t m
    rw [hmain]
    exact fun hcon => Outcome.noConfusion hcon
  · intro k t m
    exact ⟨rfl, rfl, rfl⟩

theorem c10_witness :
    main ⟨some "write-remote-env-file", none, some "routes.json", none⟩
        (fun _ => .unreadable)
      = .uncaughtException :=
  (c10_unreadable_uncaught
    ⟨some "write-remote-env-file", none, some "routes.json", none⟩
    (fun _ => .unreadable) (by decide) rfl).1

/-- C1: with a valid routing table, no category override and a non-empty
subaction, resolution searches the categories in the table's declared key
order and returns the first category whose string list contains the
subaction under exact string equality; in particular a subaction listed in
exactly one category resolves to that category with exit status 0. -/
theorem c1_first_match_in_declared_order (env : Env) (fs : String → FileContent)
    (fields : List (String × JValue)) (i : Nat) (hi : i < fields.length)
    (hroutes : pyStrip (env.ROUTES_FILE.getD "") ≠ "")
    (hfs : fs (pyStrip (env.ROUTES_FILE.getD "")) = .value (.obj fields))
    (hvalid : validTable fields = true)
    (hcat : pyStrip (env.CAT.getD "") = "")
    (hsa : pyStrip (env.SA.getD "") ≠ "")
    (hmem : (strElems (fields.get ⟨i, hi⟩).2).contains (pyStrip (env.SA.getD ""))
              = true)
    (hfirst : ∀ kv ∈ fields.take i,
        (strElems kv.2).contains (pyStrip (env.SA.getD "")) = false) :
    main env fs
        = .success (fields.get ⟨i, hi⟩).1 (outAppend env.GITHUB_OUTPUT)
      ∧ exitCode (main env fs) = 0 := by
  have hsl : ∀ kv ∈ fields, isStrList kv.2 = true := by
    simpa [validTable, List.all_eq_true] using hvalid
  have hfind : fields.find? (fun kv => jListHas kv.2 (pyStrip (env.SA.getD "")))
      = some (fields.get ⟨i, hi⟩) := by
    apply find?_first
    · rw [jListHas_eq_strElems _ (hsl _ (List.get_mem fields i hi))]
      exact hmem
    · intro kv hkv
      rw [jListHas_eq_strElems _ (hsl _ (List.take_subset i fields hkv))]
      exact hfirst kv hkv
  have hmain : main env fs
      = .success (fields.get ⟨i, hi⟩).1 (outAppend env.GITHUB_OUTPUT) := by
    simp [main, resolve, hroutes, hfs, routeContent, routeValue,
      validTable_any_false fields hvalid, routeTable, hcat, hsa, hfind]
  exact ⟨hmain, by rw [hmain]; rfl⟩

theorem c1_witness :
    main ⟨some " write-remote-env-file ", some "", some "routes.json", none⟩
        (fun _ => .value (.obj
          [("deploy", .arr [.str "deploy-staging", .str "deploy-prod"]),
           ("env", .arr [.str "write-remote-env-file", .str "read-remote-env-file"])]))
      = .success "env" none :=
  (c1_first_match_in_declared_order
    ⟨some " write-remote-env-file ", some "", some "routes.json", none⟩
    (fun _ => .value (.obj
      [("deploy", .arr [.str "deploy-staging", .str "deploy-prod"]),
       ("env", .arr [.str "write-remote-env-file", .str "read-remote-env-file"])]))
    [("deploy", .arr [.str "deploy-staging", .str "deploy-prod"]),
     ("env", .arr [.str "write-remote-env-file", .str "read-remote-env-file"])]
    1 (by decide) (by decide) rfl (by decide) (by decide) (by decide)
    (by decide) (by decide)).1

/-- C2: with a valid routing table and a non-empty category override that is
one of the table's keys, resolution returns the override with exit status 0,
for every value of the subaction (the subaction is never consulted). -/
theorem c2_override_precedence (env : Env) (fs : String → FileContent)
    (fields : List (String × JValue))
    (hroutes : pyStrip (env.ROUTES_FILE.getD "") ≠ "")
    (hfs : fs (pyStrip (env.ROUTES_FILE.getD "")) = .value (.obj fields))
    (hvalid : validTable fields = true)
    (hcat : pyStrip (env.CAT.getD "") ≠ "")
    (hkey : (fields.map Prod.fst).contains (pyStrip (env.CAT.getD "")) = true) :
    main env fs
        = .success (pyStrip (env.CAT.getD "")) (outAppend env.GITHUB_OUTPUT)
      ∧ exitCode (main env fs) = 0
      ∧ (∀ sa : Option String,
          main ⟨sa, env.CAT, env.ROUTES_FILE, env.GITHUB_OUTPUT⟩ fs
            = .success (pyStrip (env.CAT.getD "")) (outAppend env.GITHUB_OUTPUT)) := by
  have key : ∀ sa : Option String,
      main ⟨sa, env.CAT, env.ROUTES_FILE, env.GITHUB_OUTPUT⟩ fs
        = .success (pyStrip (env.CAT.getD "")) (outAppend env.GITHUB_OUTPUT) := by
    intro sa
    have hkey' : ∃ x, (pyStrip (env.CAT.getD ""), x) ∈ fields := by
      simpa [List.mem_map, Prod.ext_iff] using hkey
    simp [main, resolve, hroutes, hfs, routeContent, routeValue,
      validTable_any_false fields hvalid, routeTable, hcat, hkey']
  have hmain : main env fs
      = .success (pyStrip (env.CAT.getD "")) (outAppend env.GITHUB_OUTPUT) :=
    key env.SA
  exact ⟨hmain, by rw [hmain]; rfl, key⟩

theorem c2_witness :
    main ⟨some "write-remote-env-file", some "deploy", some "routes.json",
          some "/tmp/out"⟩
        (fun _ => .value (.obj
          [("env", .arr [.str "write-remote-env-file"]),
           ("deploy", .arr [.str "deploy-staging"])]))
      = .success "deploy" (some "/tmp/out") :=
  (c2_override_precedence
    ⟨some "write-remote-env-file", some "deploy", some "routes.json",
     some "/tmp/out"⟩
    (fun _ => .value (.obj
      [("env", .arr [.str "write-remote-env-file"]),
       ("deploy", .arr [.str "deploy-staging"])]))
    [("env", .arr [.str "write-remote-env-file"]),
     ("deploy", .arr [.str "deploy-staging"])]
    (by decide) rfl (by decide) (by decide) (by decide)).1

/-- C3 counterexample: the claim says a mapping in which some category's list
contains a non-string element is rejected with `InvalidRoutingTable`; the
script's check (router.py line 40) only requires each value to be a list, so
the table `{"env": [1]}` passes validation and the override `env` succeeds. -/
theorem c3_counterexample :
    main ⟨some "x", some "env", some "routes.json", none⟩
        (fun _ => .value (.obj [("env", .arr [.num 1])]))
      = .success "env" none := by decide

/-- C3 as amended: resolution fails with `InvalidRoutingTable` (and exit
status 1) exactly on the check the script performs — the parsed value is not
a mapping, or some category's value is not a list; element types inside the
lists are not validated. -/
theorem c3_schema_list_check (env : Env) (fs : String → FileContent)
    (v : JValue)
    (hroutes : pyStrip (env.ROUTES_FILE.getD "") ≠ "")
    (hfs : fs (pyStrip (env.ROUTES_FILE.getD "")) = .value v)
    (hbad : schemaOk v = false) :
    main env fs = .error .invalidRoutingTable "Invalid routing table"
        "routes.json must map categories to lists of subactions"
      ∧ exitCode (main env fs) = 1 := by
  have hmain : main env fs = .error .invalidRoutingTable "Invalid routing table"
      "routes.json must map categories to lists of subactions" := by
    cases v with
    | obj fields =>
        have hany : fields.any (fun kv => !(isList kv.2)) = true := by
          simpa [schemaOk] using hbad
        simp [main, resolve, hroutes, hfs, routeContent, routeValue, hany,
          invalidTableError]
    | null =>
        simp [main, resolve, hroutes, hfs, routeContent, routeValue,
          invalidTableError]
    | bool b =>
        simp [main, resolve, hroutes, hfs, routeContent, routeValue,
          invalidTableError]
    | num n =>
        simp [main, resolve, hroutes, hfs, routeContent, routeValue,
          invalidTableError]
    | str s =>
        simp [main, resolve, hroutes, hfs, routeContent, routeValue,
          invalidTableError]
    | arr l =>
        simp [main, resolve, hroutes, hfs, routeContent, routeValue,
          invalidTableError]
  exact ⟨hmain, by rw [hmain]; rfl⟩

theorem c3_witness :
    main ⟨some "x", none, some "routes.json", none⟩
        (fun _ => .value (.obj [("env", .str "write-remote-env-file")]))
      = .error .invalidRoutingTable "Invalid routing table"
          "routes.json must map categories to lists of subactions" :=
  (c3_schema_list_check ⟨some "x", none, some "routes.json", none⟩
    (fun _ => .value (.obj [("env", .str "write-remote-env-file")]))
    (.obj [("env", .str "write-remote-env-file")])
    (by decide) rfl (by decide)).1

/-- C4 counterexample: the claim says a whitespace-only `GITHUB_OUTPUT`
behaves like an unset one (no output-file append); the script reads
`GITHUB_OUTPUT` without stripping, `" "` is truthy, and the append happens —
to a file whose name is the single space. -/
theorem c4_counterexample :
    appendOf (main ⟨none, some "env", some "routes.json", some " "⟩
        (fun _ => .value (.obj [("env", .arr [.str "write-remote-env-file"])])))
      = some (" ", "category=env\n") := by decide

/-- C4 as amended: `SA`, `CAT` and `ROUTES_FILE` are each read with an absent
variable treated as the empty string and the value trimmed of surrounding
whitespace — the invocation's outcome depends on them only through their
stripped values; `GITHUB_OUTPUT` is read untrimmed with no default, and the
append is skipped exactly when it is unset or set to the empty string, so a
whitespace-only `GITHUB_OUTPUT` names a real output file and is appended to. -/
theorem c4_env_reading (e1 e2 : Env) (fs : String → FileContent)
    (h1 : pyStrip (e1.SA.getD "") = pyStrip (e2.SA.getD ""))
    (h2 : pyStrip (e1.CAT.getD "") = pyStrip (e2.CAT.getD ""))
    (h3 : pyStrip (e1.ROUTES_FILE.getD "") = pyStrip (e2.ROUTES_FILE.getD ""))
    (h4 : e1.GITHUB_OUTPUT = e2.GITHUB_OUTPUT) :
    main e1 fs = main e2 fs
      ∧ (outAppend e1.GITHUB_OUTPUT = none ↔
          (e1.GITHUB_OUTPUT = none ∨ e1.GITHUB_OUTPUT = some "")) := by
  constructor
  · rw [main, main, h1, h2, h3, h4]
  · cases h : e1.GITHUB_OUTPUT with
    | none => simp [outAppend]
    | some s =>
        by_cases hs : s = "" <;> simp [outAppend, hs]

theorem c4_witness :
    main ⟨some " write-remote-env-file ", none, some " routes.json ",
          some "/tmp/out"⟩ (fun _ => .absent)
        = main ⟨some "write-remote-env-file", some "", some "routes.json",
            some "/tmp/out"⟩ (fun _ => .absent)
      ∧ (outAppend (some "/tmp/out") = none ↔
          ((some "/tmp/out" : Option String) = none
            ∨ (some "/tmp/out" : Option String) = some "")) :=
  c4_env_reading
    ⟨some " write-remote-env-file ", none, some " routes.json ", some "/tmp/out"⟩
    ⟨some "write-remote-env-file", some "", some "routes.json", some "/tmp/out"⟩
    (fun _ => .absent) (by decide) (by decide) (by decide) rfl

/-- C7: with a valid routing table and a non-empty category override that is
not one of the table's keys, resolution fails with `UnsupportedCategory` and
exit status 1, for every value of the subaction (the subaction is never
consulted). -/
theorem c7_unsupported_category (env : Env) (fs : String → FileContent)
    (fields : List (String × JValue))
    (hroutes : pyStrip (env.ROUTES_FILE.getD "") ≠ "")
    (hfs : fs (pyStrip (env.ROUTES_FILE.getD "")) = .value (.obj fields))
    (hvalid : validTable fields = true)
    (hcat : pyStrip (env.CAT.getD "") ≠ "")
    (hkey : (fields.map Prod.fst).contains (pyStrip (env.CAT.getD "")) = false) :
    main env fs = .error .unsupportedCategory "Unsupported category"
        ("Unsupported category '" ++ pyStrip (env.CAT.getD "") ++ "'")
      ∧ exitCode (main env fs) = 1
      ∧ (∀ sa : Option String,
          main ⟨sa, env.CAT, env.ROUTES_FILE, env.GITHUB_OUTPUT⟩ fs
            = .error .unsupportedCategory "Unsupported category"
                ("Unsupported category '" ++ pyStrip (env.CAT.getD "") ++ "'")) := by
  have key : ∀ sa : Option String,
      main ⟨sa, env.CAT, env.ROUTES_FILE, env.GITHUB_OUTPUT⟩ fs
        = .error .unsupportedCategory "Unsupported category"
            ("Unsupported category '" ++ pyStrip (env.CAT.getD "") ++ "'") := by
    intro sa
    have hkey' : ∀ x, (pyStrip (env.CAT.getD ""), x) ∉ fields := by
      simpa [List.mem_map, Prod.ext_iff] using hkey
    simp [main, resolve, hroutes, hfs, routeContent, routeValue,
      validTable_any_false fields hvalid, routeTable, hcat, hkey']
  have hmain := key env.SA
  exact ⟨hmain, by rw [hmain]; rfl, key⟩

theorem c7_witness :
    main ⟨some "write-remote-env-file", some "nope", some "routes.json", none⟩
        (fun _ => .value (.obj [("env", .arr [.str "write-remote-env-file"])]))
      = .error .unsupportedCategory "Unsupported category"
          ("Unsupported category '" ++ "nope" ++ "'") :=
  (c7_unsupported_category
    ⟨some "write-remote-env-file", some "nope", some "routes.json", none⟩
    (fun _ => .value (.obj [("env", .arr [.str "write-remote-env-file"])]))
    [("env", .arr [.str "write-remote-env-file"])]
    (by decide) rfl (by decide) (by decide) (by decide)).1

/-- C9: the output file is only ever touched by a successful invocation with a
truthy `GITHUB_OUTPUT`, and then the append is exactly the single line
`category=<resolved-category>` followed by a newline; every failing outcome
(error or uncaught exception) appends nothing. -/
theorem c9_output_file_frame (env : Env) (fs : String → FileContent) :
    appendOf (main env fs) =
      (match main env fs with
        | .success c _ =>
            (outAppend env.GITHUB_OUTPUT).map (fun p => (p, outputLine c ++ "\n"))
        | .error _ _ _ => none
        | .uncaughtException => none) := by
  cases h : main env fs with
  | success c a =>
      have ha : a = outAppend env.GITHUB_OUTPUT :=
        resolve_success_append (pyStrip (env.ROUTES_FILE.getD ""))
          (pyStrip (env.SA.getD "")) (pyStrip (env.CAT.getD ""))
          env.GITHUB_OUTPUT fs c a h
      subst ha
      simp [appendOf]
  | error k t m => simp [appendOf]
  | uncaughtException => simp [appendOf]

end RouteCategory
